import Mathlib

/-!
Shallow embedding of the repair-shop management backend (TypeScript handlers
over a relational store) and verification of its stock-ledger, invoicing and
point-of-sale properties.

Conventions of the embedding:
- each table is a `List` of row structures inside a `DB` state;
- serial primary keys come from a single `nextId` counter;
- wall-clock values (`new Date()`, `Date.now()`, date columns) are an abstract
  tick `now : Nat` carried in the state;
- money (`numeric` columns exposed as JS numbers) is `ℚ`; the string/number
  round-trips (`toString` / `parseFloat`) of the handlers are identities here;
- a thrown JS error is an `Except.error`; since every handler runs its SQL
  statements sequentially without a wrapping database transaction, a handler
  returns the state it actually left behind together with the result, so a
  failure after a persisted insert keeps that insert (this is exactly the
  behaviour under verification);
- JS truthiness on optional numbers (`a || b` treats `0` like absence) is
  modelled explicitly by `jsOrQ` / `truthyNat`.
-/

namespace RepairShop

/-- Status enum of a repair service ticket (pgEnum service_status). -/
inductive ServiceStatus where
  | received
  | in_progress
  | ready_for_pickup
  | completed
deriving DecidableEq, Repr

/-- Transaction kind (pgEnum transaction_type). -/
inductive TransactionType where
  | purchase
  | sale
deriving DecidableEq, Repr

/-- Invoice status (pgEnum invoice_status). -/
inductive InvoiceStatus where
  | draft
  | sent
  | paid
  | cancelled
deriving DecidableEq, Repr

/-- Errors thrown by the handlers. -/
inductive DbError where
  | notFound (entity : String) (id : Nat)
  | insufficientStock (available requested : Int)
deriving DecidableEq, Repr

/-- Row of the customers table. -/
structure Customer where
  id : Nat
  name : String
  email : Option String
  phone : Option String
  address : Option String
deriving DecidableEq, Repr

/-- Row of the suppliers table. -/
structure Supplier where
  id : Nat
  name : String
  contact_person : Option String
  email : Option String
  phone : Option String
  address : Option String
deriving DecidableEq, Repr

/-- Row of the products table. -/
structure Product where
  id : Nat
  name : String
  description : Option String
  sku : Option String
  category : Option String
  purchase_price : ℚ
  selling_price : ℚ
  stock_quantity : Int
  min_stock_level : Int
  updated_at : Nat
deriving DecidableEq, Repr

/-- Row of the services table. -/
structure Service where
  id : Nat
  customer_id : Nat
  device_type : String
  device_model : Option String
  device_serial : Option String
  problem_description : String
  repair_notes : Option String
  estimated_cost : Option ℚ
  final_cost : Option ℚ
  status : ServiceStatus
  received_date : Nat
  completed_date : Option Nat
  updated_at : Nat
deriving DecidableEq, Repr

/-- Row of the service_items table. -/
structure ServiceItem where
  id : Nat
  service_id : Nat
  product_id : Nat
  quantity : Int
  unit_price : ℚ
  total_price : ℚ
deriving DecidableEq, Repr

/-- Row of the transactions table. -/
structure Transaction where
  id : Nat
  ttype : TransactionType
  supplier_id : Option Nat
  customer_id : Option Nat
  total_amount : ℚ
  transaction_date : Nat
  notes : Option String
deriving DecidableEq, Repr

/-- Row of the transaction_items table. -/
structure TransactionItem where
  id : Nat
  transaction_id : Nat
  product_id : Nat
  quantity : Int
  unit_price : ℚ
  total_price : ℚ
deriving DecidableEq, Repr

/-- Row of the invoices table. -/
structure Invoice where
  id : Nat
  customer_id : Nat
  service_id : Option Nat
  transaction_id : Option Nat
  invoice_number : String
  subtotal : ℚ
  tax_amount : ℚ
  total_amount : ℚ
  status : InvoiceStatus
  issue_date : Nat
  due_date : Option Nat
  paid_date : Option Nat
  notes : Option String
  updated_at : Nat
deriving DecidableEq, Repr

/-- The relational store plus the serial-id source and the clock. -/
structure DB where
  customers : List Customer
  suppliers : List Supplier
  products : List Product
  services : List Service
  serviceItems : List ServiceItem
  transactions : List Transaction
  transactionItems : List TransactionItem
  invoices : List Invoice
  nextId : Nat
  now : Nat
deriving DecidableEq, Repr

/-- The empty store. -/
def DB.empty : DB :=
  { customers := [], suppliers := [], products := [], services := []
    serviceItems := [], transactions := [], transactionItems := []
    invoices := [], nextId := 1, now := 0 }

/-- JS `a || b` on an optional number: `0` (and absence) falls through to `b`. -/
def jsOrQ (a : Option ℚ) (b : ℚ) : ℚ :=
  match a with
  | none => b
  | some x => if x = 0 then b else x

/-- JS truthiness of an optional id: `0` counts as absent (`if (input.x)`). -/
def truthyNat (a : Option Nat) : Option Nat :=
  match a with
  | some 0 => none
  | x => x

/-- SELECT ... WHERE id = i on a table, returning the first matching row. -/
def findById (idOf : α → Nat) (l : List α) (i : Nat) : Option α :=
  l.find? (fun x => decide (idOf x = i))

/-- UPDATE ... WHERE id = i: rewrite the matching rows with `f`. -/
def mapById (idOf : α → Nat) (l : List α) (i : Nat) (f : α → α) : List α :=
  l.map (fun x => if idOf x = i then f x else x)

/-- Lookup a product row by id. -/
def findProduct (db : DB) (pid : Nat) : Option Product :=
  findById Product.id db.products pid

/-- Lookup a service row by id. -/
def findService (db : DB) (sid : Nat) : Option Service :=
  findById Service.id db.services sid

/-- Lookup a customer row by id. -/
def findCustomer (db : DB) (cid : Nat) : Option Customer :=
  findById Customer.id db.customers cid

/-- Lookup a transaction row by id. -/
def findTransaction (db : DB) (tid : Nat) : Option Transaction :=
  findById Transaction.id db.transactions tid

/-- Lookup a service-item row by id. -/
def findServiceItem (db : DB) (iid : Nat) : Option ServiceItem :=
  findById ServiceItem.id db.serviceItems iid

/-- Lookup an invoice row by id. -/
def findInvoice (db : DB) (iid : Nat) : Option Invoice :=
  findById Invoice.id db.invoices iid

/-- The stock on hand recorded for product `pid`, when the row exists. -/
def stockOf (db : DB) (pid : Nat) : Option Int :=
  (findProduct db pid).map Product.stock_quantity

/-- UPDATE products SET stock_quantity = s WHERE id = pid. -/
def setStock (ps : List Product) (pid : Nat) (s : Int) : List Product :=
  mapById Product.id ps pid (fun p => { p with stock_quantity := s })

/-- UPDATE products SET stock_quantity = stock_quantity - q WHERE id = pid
    (the relative SQL decrement used by the POS handler). -/
def decStock (ps : List Product) (pid : Nat) (q : Int) : List Product :=
  mapById Product.id ps pid (fun p => { p with stock_quantity := p.stock_quantity - q })

/-- Input of createServiceItem (zod createServiceItemInputSchema). -/
structure CreateServiceItemInput where
  service_id : Nat
  product_id : Nat
  quantity : Int
  unit_price : ℚ
deriving DecidableEq, Repr

/-- handlers/service_items.ts createServiceItem: verify the service and the
product exist, reject when stock is short of the quantity, insert the item
with total_price = quantity * unit_price, then write the decremented stock. -/
def createServiceItem (db : DB) (input : CreateServiceItemInput) :
    Except DbError ServiceItem × DB :=
  match findService db input.service_id with
  | none => (.error (.notFound "Service" input.service_id), db)
  | some _ =>
    match findProduct db input.product_id with
    | none => (.error (.notFound "Product" input.product_id), db)
    | some product =>
      if product.stock_quantity < input.quantity then
        (.error (.insufficientStock product.stock_quantity input.quantity), db)
      else
        let totalPrice : ℚ := (input.quantity : ℚ) * input.unit_price
        let item : ServiceItem :=
          { id := db.nextId, service_id := input.service_id
            product_id := input.product_id, quantity := input.quantity
            unit_price := input.unit_price, total_price := totalPrice }
        let db1 := { db with serviceItems := db.serviceItems ++ [item]
                             nextId := db.nextId + 1 }
        let db2 := { db1 with
          products := setStock db1.products input.product_id
            (product.stock_quantity - input.quantity) }
        (.ok item, db2)

/-- handlers/service_items.ts getServiceItems: the stored rows of a service,
returned as persisted (prices are parsed back, never recomputed). -/
def getServiceItems (db : DB) (sid : Nat) : Except DbError (List ServiceItem) :=
  match findService db sid with
  | none => .error (.notFound "Service" sid)
  | some _ => .ok (db.serviceItems.filter (fun i => decide (i.service_id = sid)))

/-- handlers/service_items.ts deleteServiceItem: look the item up, look its
product up, write the restored stock, then delete the item row. -/
def deleteServiceItem (db : DB) (iid : Nat) : Except DbError Unit × DB :=
  match findServiceItem db iid with
  | none => (.error (.notFound "Service item" iid), db)
  | some item =>
    match findProduct db item.product_id with
    | none => (.error (.notFound "Product" item.product_id), db)
    | some product =>
      let db1 := { db with
        products := setStock db.products item.product_id
          (product.stock_quantity + item.quantity) }
      let db2 := { db1 with
        serviceItems := db1.serviceItems.filter (fun i => decide (i.id ≠ iid)) }
      (.ok (), db2)

/-- Input of createTransactionItem (zod createTransactionItemInputSchema). -/
structure CreateTransactionItemInput where
  transaction_id : Nat
  product_id : Nat
  quantity : Int
  unit_price : ℚ
deriving DecidableEq, Repr

/-- handlers/transactions createTransactionItem: validate the transaction and
the product, insert the item row, and only then branch on the transaction
type: a purchase adds the quantity to stock unconditionally; a sale computes
the decremented stock and throws when it would go negative — after the item
row was already inserted, so that insert stays persisted on this failure. -/
def createTransactionItem (db : DB) (input : CreateTransactionItemInput) :
    Except DbError TransactionItem × DB :=
  match findTransaction db input.transaction_id with
  | none => (.error (.notFound "Transaction" input.transaction_id), db)
  | some tx =>
    match findProduct db input.product_id with
    | none => (.error (.notFound "Product" input.product_id), db)
    | some product =>
      let totalPrice : ℚ := (input.quantity : ℚ) * input.unit_price
      let item : TransactionItem :=
        { id := db.nextId, transaction_id := input.transaction_id
          product_id := input.product_id, quantity := input.quantity
          unit_price := input.unit_price, total_price := totalPrice }
      let db1 := { db with transactionItems := db.transactionItems ++ [item]
                           nextId := db.nextId + 1 }
      match tx.ttype with
      | .purchase =>
        let db2 := { db1 with
          products := setStock db1.products input.product_id
            (product.stock_quantity + input.quantity) }
        (.ok item, db2)
      | .sale =>
        let newStock := product.stock_quantity - input.quantity
        if newStock < 0 then
          (.error (.insufficientStock product.stock_quantity input.quantity), db1)
        else
          let db2 := { db1 with
            products := setStock db1.products input.product_id newStock }
          (.ok item, db2)

/-- One cart line of a POS checkout. -/
structure PosItemInput where
  product_id : Nat
  quantity : Int
  unit_price : ℚ
deriving DecidableEq, Repr

/-- Input of createPosTransaction. -/
structure CreatePosTransactionInput where
  customer_id : Nat
  service_id : Option Nat
  items : List PosItemInput
  service_charge : Option ℚ
  tax_rate : ℚ
  notes : Option String
deriving DecidableEq, Repr

/-- One line of the returned POS summary (product data joined in). -/
structure PosItem where
  product_id : Nat
  product_name : String
  product_sku : Option String
  quantity : Int
  unit_price : ℚ
  total_price : ℚ
deriving DecidableEq, Repr

/-- The summary object returned by createPosTransaction. -/
structure PosTransactionSummary where
  transaction : Transaction
  customer : Customer
  service : Option Service
  items : List PosItem
  subtotal : ℚ
  service_charge : ℚ
  tax_amount : ℚ
  total_amount : ℚ
deriving DecidableEq, Repr

/-- The completed-service lookup of the POS handler: the row must match the
given id, belong to the given customer and have status completed. -/
def findCompletedServiceFor (db : DB) (sid cid : Nat) : Option Service :=
  db.services.find? (fun s =>
    decide (s.id = sid ∧ s.customer_id = cid ∧
      s.status = ServiceStatus.completed))

/-- The POS validation loop over the cart: each line needs an existing product
with stock at least the quantity; it accumulates the joined summary lines and
the subtotal of quantity * unit_price. No write happens in this phase. -/
def posValidateItems (db : DB) : List PosItemInput →
    Except DbError (List PosItem × ℚ)
  | [] => .ok ([], 0)
  | it :: rest =>
    match findProduct db it.product_id with
    | none => .error (.notFound "Product" it.product_id)
    | some p =>
      if p.stock_quantity < it.quantity then
        .error (.insufficientStock p.stock_quantity it.quantity)
      else
        match posValidateItems db rest with
        | .error e => .error e
        | .ok (ps, sub) =>
          let totalPrice : ℚ := (it.quantity : ℚ) * it.unit_price
          .ok ({ product_id := p.id, product_name := p.name
                 product_sku := p.sku, quantity := it.quantity
                 unit_price := it.unit_price, total_price := totalPrice } :: ps,
               totalPrice + sub)

/-- The POS insertion loop: for each cart line in order, insert a transaction
item and run the relative SQL decrement on the product's stock. -/
def posInsertItems (tid : Nat) (items : List PosItemInput) (db : DB) : DB :=
  match items with
  | [] => db
  | it :: rest =>
    let row : TransactionItem :=
      { id := db.nextId, transaction_id := tid, product_id := it.product_id
        quantity := it.quantity, unit_price := it.unit_price
        total_price := (it.quantity : ℚ) * it.unit_price }
    let d1 := { db with transactionItems := db.transactionItems ++ [row]
                        nextId := db.nextId + 1 }
    let d2 := { d1 with
      products := decStock d1.products it.product_id it.quantity }
    posInsertItems tid rest d2

/-- handlers/pos.ts createPosTransaction: validate the customer; when a
truthy service_id is given, require a row matching that id, that customer and
status completed, and take the service charge as the truthy-or chain
input.service_charge || (service.final_cost || 0); validate every cart
line against current stock accumulating the subtotal; compute
tax = (subtotal + serviceCharge) * tax_rate and the all-inclusive total;
insert one sale transaction carrying that total; then insert one transaction
item per cart line, decrementing stock as it goes. The service charge itself
is never inserted as a line item. -/
def createPosTransaction (db : DB) (input : CreatePosTransactionInput) :
    Except DbError PosTransactionSummary × DB :=
  match findCustomer db input.customer_id with
  | none => (.error (.notFound "Customer" input.customer_id), db)
  | some customer =>
    let svcStep : Except DbError (Option Service × ℚ) :=
      match truthyNat input.service_id with
      | none => .ok (none, 0)
      | some sid =>
        match findCompletedServiceFor db sid input.customer_id with
        | none => .error (.notFound "Completed service" sid)
        | some s => .ok (some s, jsOrQ input.service_charge (jsOrQ s.final_cost 0))
    match svcStep with
    | .error e => (.error e, db)
    | .ok (service, serviceCharge) =>
      match posValidateItems db input.items with
      | .error e => (.error e, db)
      | .ok (posItems, subtotal) =>
        let totalBeforeTax := subtotal + serviceCharge
        let taxAmount := totalBeforeTax * input.tax_rate
        let totalAmount := totalBeforeTax + taxAmount
        let tx : Transaction :=
          { id := db.nextId, ttype := .sale, supplier_id := none
            customer_id := some input.customer_id, total_amount := totalAmount
            transaction_date := db.now, notes := input.notes }
        let db1 := { db with transactions := db.transactions ++ [tx]
                             nextId := db.nextId + 1 }
        let db2 := posInsertItems tx.id input.items db1
        (.ok { transaction := tx, customer := customer, service := service
               items := posItems, subtotal := subtotal
               service_charge := serviceCharge, tax_amount := taxAmount
               total_amount := totalAmount }, db2)

/-- Input of createInvoice (zod createInvoiceInputSchema); fields declared
both optional and nullable are a doubled Option: outer none = omitted,
some none = explicit null. -/
structure CreateInvoiceInput where
  customer_id : Nat
  service_id : Option Nat
  transaction_id : Option Nat
  invoice_number : String
  subtotal : ℚ
  tax_amount : Option ℚ
  due_date : Option (Option Nat)
  notes : Option String
deriving DecidableEq, Repr

/-- JS `s || null` on an optional string: the empty string is falsy. -/
def truthyStr (a : Option String) : Option String :=
  match a with
  | some s => if s = "" then none else some s
  | none => none

/-- handlers/invoices.ts createInvoice: verify the customer, verify a truthy
service_id, take tax_amount || 0, store total_amount = subtotal + tax, and
let the column defaults fill status draft, issue_date today, paid_date null. -/
def createInvoice (db : DB) (input : CreateInvoiceInput) :
    Except DbError Invoice × DB :=
  match findCustomer db input.customer_id with
  | none => (.error (.notFound "Customer" input.customer_id), db)
  | some _ =>
    let svcErr : Option Nat :=
      match truthyNat input.service_id with
      | none => none
      | some sid => if (findService db sid).isSome then none else some sid
    match svcErr with
    | some sid => (.error (.notFound "Service" sid), db)
    | none =>
      let taxAmount := jsOrQ input.tax_amount 0
      let totalAmount := input.subtotal + taxAmount
      let inv : Invoice :=
        { id := db.nextId, customer_id := input.customer_id
          service_id := truthyNat input.service_id
          transaction_id := truthyNat input.transaction_id
          invoice_number := input.invoice_number
          subtotal := input.subtotal, tax_amount := taxAmount
          total_amount := totalAmount, status := .draft
          issue_date := db.now, due_date := input.due_date.join
          paid_date := none, notes := truthyStr input.notes
          updated_at := db.now }
      (.ok inv, { db with invoices := db.invoices ++ [inv]
                          nextId := db.nextId + 1 })

/-- handlers/invoices.ts generateInvoiceFromService: load the service, sum
total_price over its service items (an SQL SUM, 0 when there are no rows),
add final_cost (0 when null) as labor, synthesize the invoice number from the
service id and the clock, and delegate to createInvoice with zero tax. -/
def generateInvoiceFromService (db : DB) (sid : Nat) :
    Except DbError Invoice × DB :=
  match findService db sid with
  | none => (.error (.notFound "Service" sid), db)
  | some service =>
    let partsTotal : ℚ :=
      ((db.serviceItems.filter (fun i => decide (i.service_id = sid))).map
        ServiceItem.total_price).sum
    let laborCost : ℚ := service.final_cost.getD 0
    let subtotal := partsTotal + laborCost
    let invoiceNumber :=
      "INV-SRV-" ++ toString sid ++ "-" ++ toString db.now
    createInvoice db
      { customer_id := service.customer_id, service_id := some sid
        transaction_id := none, invoice_number := invoiceNumber
        subtotal := subtotal, tax_amount := some 0, due_date := none
        notes := some ("Auto-generated invoice for service #" ++ toString sid) }

/-- Input of updateInvoice (zod updateInvoiceInputSchema). -/
structure UpdateInvoiceInput where
  id : Nat
  status : Option InvoiceStatus
  paid_date : Option (Option Nat)
  notes : Option (Option String)
deriving DecidableEq, Repr

/-- handlers/invoices.ts updateInvoice: require the invoice to exist, then run
one UPDATE whose set clause drops the fields that are undefined (status, notes
when omitted) but always writes paid_date = input.paid_date || null — an
omitted paid_date is materialized as null — and always refreshes updated_at. -/
def updateInvoice (db : DB) (input : UpdateInvoiceInput) :
    Except DbError Invoice × DB :=
  match findInvoice db input.id with
  | none => (.error (.notFound "Invoice" input.id), db)
  | some old =>
    let merged : Invoice :=
      { old with status := input.status.getD old.status
                 paid_date := input.paid_date.join
                 notes := input.notes.getD old.notes
                 updated_at := db.now }
    (.ok merged,
     { db with invoices := mapById Invoice.id db.invoices input.id (fun _ => merged) })

/-- Input of updateCustomer (zod updateCustomerInputSchema). -/
structure UpdateCustomerInput where
  id : Nat
  name : Option String
  email : Option (Option String)
  phone : Option (Option String)
  address : Option (Option String)
deriving DecidableEq, Repr

/-- handlers/customers.ts updateCustomer: build the set clause only from the
fields that were provided; a zero-row UPDATE raises not-found. -/
def updateCustomer (db : DB) (input : UpdateCustomerInput) :
    Except DbError Customer × DB :=
  match findCustomer db input.id with
  | none => (.error (.notFound "Customer" input.id), db)
  | some old =>
    let merged : Customer :=
      { old with name := input.name.getD old.name
                 email := input.email.getD old.email
                 phone := input.phone.getD old.phone
                 address := input.address.getD old.address }
    (.ok merged,
     { db with customers := mapById Customer.id db.customers input.id (fun _ => merged) })

/-- Input of updateProduct (zod updateProductInputSchema). -/
structure UpdateProductInput where
  id : Nat
  name : Option String
  description : Option (Option String)
  sku : Option (Option String)
  category : Option (Option String)
  purchase_price : Option ℚ
  selling_price : Option ℚ
  stock_quantity : Option Int
  min_stock_level : Option Int
deriving DecidableEq, Repr

/-- handlers/products updateProduct: merge only the provided fields, always
set updated_at to the clock, raise not-found on a zero-row UPDATE. -/
def updateProduct (db : DB) (input : UpdateProductInput) :
    Except DbError Product × DB :=
  match findProduct db input.id with
  | none => (.error (.notFound "Product" input.id), db)
  | some old =>
    let merged : Product :=
      { old with name := input.name.getD old.name
                 description := input.description.getD old.description
                 sku := input.sku.getD old.sku
                 category := input.category.getD old.category
                 purchase_price := input.purchase_price.getD old.purchase_price
                 selling_price := input.selling_price.getD old.selling_price
                 stock_quantity := input.stock_quantity.getD old.stock_quantity
                 min_stock_level := input.min_stock_level.getD old.min_stock_level
                 updated_at := db.now }
    (.ok merged,
     { db with products := mapById Product.id db.products input.id (fun _ => merged) })

/-- Input of updateService (zod updateServiceInputSchema). -/
structure UpdateServiceInput where
  id : Nat
  device_type : Option String
  device_model : Option (Option String)
  device_serial : Option (Option String)
  problem_description : Option String
  repair_notes : Option (Option String)
  estimated_cost : Option (Option ℚ)
  final_cost : Option (Option ℚ)
  status : Option ServiceStatus
  completed_date : Option (Option Nat)
deriving DecidableEq, Repr

/-- handlers/services updateService: require the row, merge only the provided
fields; the set clause never touches updated_at and the column has no
on-update default, so the timestamp is left as it was. -/
def updateService (db : DB) (input : UpdateServiceInput) :
    Except DbError Service × DB :=
  match findService db input.id with
  | none => (.error (.notFound "Service" input.id), db)
  | some old =>
    let merged : Service :=
      { old with device_type := input.device_type.getD old.device_type
                 device_model := input.device_model.getD old.device_model
                 device_serial := input.device_serial.getD old.device_serial
                 problem_description :=
                   input.problem_description.getD old.problem_description
                 repair_notes := input.repair_notes.getD old.repair_notes
                 estimated_cost := input.estimated_cost.getD old.estimated_cost
                 final_cost := input.final_cost.getD old.final_cost
                 status := input.status.getD old.status
                 completed_date := input.completed_date.getD old.completed_date }
    (.ok merged,
     { db with services := mapById Service.id db.services input.id (fun _ => merged) })

/-- handlers/products getLowStockProducts: SELECT * FROM products WHERE
stock_quantity < min_stock_level (strict). -/
def getLowStockProducts (db : DB) : List Product :=
  db.products.filter (fun p => decide (p.stock_quantity < p.min_stock_level))

/-! ### Lemmas about the table primitives -/

theorem findById_mapById_self (idOf : α → Nat) (l : List α) (i : Nat) (f : α → α)
    (hf : ∀ x, idOf x = i → idOf (f x) = i) :
    findById idOf (mapById idOf l i f) i = (findById idOf l i).map f := by
  induction l with
  | nil => rfl
  | cons a t ih =>
    by_cases h : idOf a = i
    · simp [findById, mapById, List.find?_cons, h, hf a h]
    · simpa [findById, mapById, List.find?_cons, h] using ih

theorem findById_mapById_const (idOf : α → Nat) (l : List α) (i : Nat)
    (y : α) (hy : idOf y = i) (x : α) (hx : findById idOf l i = some x) :
    findById idOf (mapById idOf l i (fun _ => y)) i = some y := by
  rw [findById_mapById_self idOf l i (fun _ => y) (fun _ _ => hy), hx]
  rfl

theorem findById_append (idOf : α → Nat) (l1 l2 : List α) (i : Nat) :
    findById idOf (l1 ++ l2) i = (findById idOf l1 i).or (findById idOf l2 i) := by
  simp [findById, List.find?_append]

theorem findById_eq_none (idOf : α → Nat) (l : List α) (i : Nat)
    (h : ∀ x ∈ l, idOf x ≠ i) : findById idOf l i = none := by
  simp only [findById, List.find?_eq_none, decide_eq_true_eq]
  exact h

theorem findById_id (idOf : α → Nat) (l : List α) (i : Nat) (x : α)
    (h : findById idOf l i = some x) : idOf x = i := by
  have := List.find?_some h
  simpa using this

theorem findById_setStock_self (ps : List Product) (pid : Nat) (s : Int) :
    findById Product.id (setStock ps pid s) pid =
      (findById Product.id ps pid).map (fun p => { p with stock_quantity := s }) :=
  findById_mapById_self _ _ _ _ (fun _ hx => hx)

theorem findById_decStock_self (ps : List Product) (pid : Nat) (q : Int) :
    findById Product.id (decStock ps pid q) pid =
      (findById Product.id ps pid).map
        (fun p => { p with stock_quantity := p.stock_quantity - q }) :=
  findById_mapById_self _ _ _ _ (fun _ hx => hx)

deriving instance DecidableEq for Except

/-! ### Concrete fixtures used by witnesses and counterexamples -/

/-- A sample customer row. -/
def johnDoe : Customer :=
  { id := 1, name := "John Doe", email := none, phone := none, address := none }

/-- A sample product row with ten units on hand. -/
def widget : Product :=
  { id := 2, name := "Widget", description := none, sku := none, category := none
    purchase_price := 20, selling_price := 30, stock_quantity := 10
    min_stock_level := 3, updated_at := 0 }

/-- A completed repair service of the sample customer, labor cost 50. -/
def doneService : Service :=
  { id := 3, customer_id := 1, device_type := "phone", device_model := none
    device_serial := none, problem_description := "cracked screen"
    repair_notes := none, estimated_cost := none, final_cost := some 50
    status := .completed, received_date := 0, completed_date := none
    updated_at := 0 }

/-- A base store holding the three fixture rows. -/
def baseDB : DB :=
  { DB.empty with customers := [johnDoe], products := [widget]
                  services := [doneService], nextId := 10, now := 7 }

/-- A stored part line worth 120 on the fixture service. -/
def part120 : ServiceItem :=
  { id := 6, service_id := 3, product_id := 2, quantity := 1
    unit_price := 120, total_price := 120 }

/-- The fixture service with labor cost 150. -/
def svc150 : Service := { doneService with final_cost := some 150 }

/-- Store for the invoice-generation scenario of the spec. -/
def invoiceDB : DB := { baseDB with services := [svc150], serviceItems := [part120] }

/-- A stored service item pointing at a product id that has no row. -/
def orphanItem : ServiceItem :=
  { id := 6, service_id := 3, product_id := 99, quantity := 2
    unit_price := 10, total_price := 20 }

/-- Store holding `orphanItem` next to the base fixtures. -/
def orphanDB : DB := { baseDB with serviceItems := [orphanItem] }

/-- A sale transaction row of the fixture customer. -/
def saleTx : Transaction :=
  { id := 4, ttype := .sale, supplier_id := none, customer_id := some 1
    total_amount := 0, transaction_date := 0, notes := none }

/-- A purchase transaction row. -/
def purchaseTx : Transaction :=
  { id := 5, ttype := .purchase, supplier_id := some 1, customer_id := none
    total_amount := 0, transaction_date := 0, notes := none }

/-- Store with both transaction kinds over the base fixtures. -/
def txDB : DB := { baseDB with transactions := [saleTx, purchaseTx] }

/-- `txDB` with the widget down to a single unit on hand. -/
def lowTxDB : DB :=
  { txDB with products := [{ widget with stock_quantity := 1 }] }

/-- A sale line of two widgets against the single-unit store. -/
def twoWidgetsSale : CreateTransactionItemInput :=
  { transaction_id := 4, product_id := 2, quantity := 2, unit_price := 30 }

/-- Input taking four widgets at unit price 25 for the fixture service. -/
def fourWidgets : CreateServiceItemInput :=
  { service_id := 3, product_id := 2, quantity := 4, unit_price := 25 }

/-- The row `createServiceItem baseDB fourWidgets` persists. -/
def fourWidgetsItem : ServiceItem :=
  { id := 10, service_id := 3, product_id := 2, quantity := 4
    unit_price := 25, total_price := 100 }

/-! ### Claim theorems -/

/-- C9: the low-stock query returns exactly the products whose stock_quantity
is strictly below min_stock_level; in particular a product with stock 5 and
minimum 20 appears, and one with stock 10 and minimum 10 does not. -/
theorem C9_low_stock_query_strict :
    (∀ (db : DB) (p : Product),
        p ∈ getLowStockProducts db ↔
          p ∈ db.products ∧ p.stock_quantity < p.min_stock_level) ∧
    ({ widget with id := 4, stock_quantity := 5, min_stock_level := 20 } ∈
        getLowStockProducts { baseDB with products :=
          [{ widget with id := 4, stock_quantity := 5, min_stock_level := 20 },
           { widget with id := 5, stock_quantity := 10, min_stock_level := 10 }] }) ∧
    ({ widget with id := 5, stock_quantity := 10, min_stock_level := 10 } ∉
        getLowStockProducts { baseDB with products :=
          [{ widget with id := 4, stock_quantity := 5, min_stock_level := 20 },
           { widget with id := 5, stock_quantity := 10, min_stock_level := 10 }] }) := by
  refine ⟨fun db p => ?_, ?_, ?_⟩
  · simp [getLowStockProducts, List.mem_filter]
  · with_unfolding_all decide
  · with_unfolding_all decide

/-- C7: every created ServiceItem and TransactionItem carries
total_price = quantity * unit_price, computed at creation, and exactly that
row is appended to the store (reads return it unrecomputed). -/
theorem C7_total_price_exact (db : DB) (si : CreateServiceItemInput)
    (ti : CreateTransactionItemInput) :
    (∀ item db1, createServiceItem db si = (.ok item, db1) →
        item.total_price = (item.quantity : ℚ) * item.unit_price ∧
        db1.serviceItems = db.serviceItems ++ [item]) ∧
    (∀ item db1, createTransactionItem db ti = (.ok item, db1) →
        item.total_price = (item.quantity : ℚ) * item.unit_price ∧
        db1.transactionItems = db.transactionItems ++ [item]) := by
  constructor
  · intro item db1 h
    unfold createServiceItem at h
    split at h
    · simp at h
    · split at h
      · simp at h
      · split at h
        · simp at h
        · simp only [Prod.mk.injEq, Except.ok.injEq] at h
          obtain ⟨rfl, rfl⟩ := h
          simp
  · intro item db1 h
    unfold createTransactionItem at h
    split at h
    · simp at h
    · split at h
      · simp at h
      · split at h
        · simp only [Prod.mk.injEq, Except.ok.injEq] at h
          obtain ⟨rfl, rfl⟩ := h
          simp
        · simp only [] at h
          split at h
          · simp at h
          · simp only [Prod.mk.injEq, Except.ok.injEq] at h
            obtain ⟨rfl, rfl⟩ := h
            simp

/-- C7 witness: a concrete part of quantity 4 at unit price 25.50 is created
with total 102 and exactly that row is appended. -/
theorem C7_total_price_exact_witness :
    ({ id := 10, service_id := 3, product_id := 2, quantity := 4
       unit_price := 51/2, total_price := 102 } : ServiceItem).total_price =
        ((4 : Int) : ℚ) * (51/2) ∧
    (createServiceItem baseDB
      { service_id := 3, product_id := 2, quantity := 4, unit_price := 51/2
        }).2.serviceItems = baseDB.serviceItems ++
        [{ id := 10, service_id := 3, product_id := 2, quantity := 4
           unit_price := 51/2, total_price := 102 }] := by
  have h := (C7_total_price_exact baseDB
    { service_id := 3, product_id := 2, quantity := 4, unit_price := 51/2 }
    { transaction_id := 1, product_id := 2, quantity := 1, unit_price := 1 }).1
    { id := 10, service_id := 3, product_id := 2, quantity := 4
      unit_price := 51/2, total_price := 102 }
    (createServiceItem baseDB
      { service_id := 3, product_id := 2, quantity := 4, unit_price := 51/2 }).2
    (by with_unfolding_all decide)
  exact ⟨h.1, h.2⟩

theorem jsOrQ_zero (a : Option ℚ) : jsOrQ a 0 = a.getD 0 := by
  cases a with
  | none => rfl
  | some x =>
    by_cases h : x = 0 <;> simp [jsOrQ, h]

theorem truthyNat_some (n : Nat) :
    truthyNat (some n) = none ∨ truthyNat (some n) = some n := by
  cases n with
  | zero => exact .inl rfl
  | succ k => exact .inr rfl

/-- A successful createInvoice call: the customer resolves and any truthy
service_id resolves, so the inserted invoice carries subtotal as given,
tax_amount = tax_amount || 0, the sum as total and status draft. -/
theorem createInvoice_success (db : DB) (input : CreateInvoiceInput)
    (c : Customer) (hc : findCustomer db input.customer_id = some c)
    (hs : ∀ sid, truthyNat input.service_id = some sid →
      (findService db sid).isSome) :
    ∃ inv db1, createInvoice db input = (.ok inv, db1) ∧
      inv.subtotal = input.subtotal ∧
      inv.tax_amount = jsOrQ input.tax_amount 0 ∧
      inv.total_amount = input.subtotal + jsOrQ input.tax_amount 0 ∧
      inv.status = .draft := by
  unfold createInvoice
  cases hsid : truthyNat input.service_id with
  | none =>
    simp only [hc, hsid]
    exact ⟨_, _, rfl, rfl, rfl, rfl, rfl⟩
  | some sid =>
    simp only [hc, hsid, hs sid hsid, if_true]
    exact ⟨_, _, rfl, rfl, rfl, rfl, rfl⟩

/-- C6: a valid createInvoice whose customer (and truthy service) exists
succeeds with total_amount = subtotal + tax_amount, tax_amount defaulting
to 0 when omitted and status defaulting to draft. -/
theorem C6_create_invoice_totals (db : DB) (input : CreateInvoiceInput)
    (c : Customer) (hc : findCustomer db input.customer_id = some c)
    (hs : ∀ sid, truthyNat input.service_id = some sid →
      (findService db sid).isSome) :
    ∃ inv db1, createInvoice db input = (.ok inv, db1) ∧
      inv.total_amount = inv.subtotal + inv.tax_amount ∧
      inv.tax_amount = input.tax_amount.getD 0 ∧
      (input.tax_amount = none → inv.tax_amount = 0) ∧
      inv.status = .draft := by
  obtain ⟨inv, db1, heq, hsub, htax, htot, hst⟩ :=
    createInvoice_success db input c hc hs
  refine ⟨inv, db1, heq, ?_, ?_, ?_, hst⟩
  · rw [htot, hsub, htax]
  · rw [htax, jsOrQ_zero]
  · intro h
    rw [htax, h]
    rfl

/-- C6 witness: invoicing the fixture customer with subtotal 200 and omitted
tax yields tax 0, total 200, status draft. -/
theorem C6_create_invoice_totals_witness :
    ∃ inv db1, createInvoice baseDB
        { customer_id := 1, service_id := none, transaction_id := none
          invoice_number := "INV-1", subtotal := 200, tax_amount := none
          due_date := none, notes := none } = (.ok inv, db1) ∧
      inv.total_amount = inv.subtotal + inv.tax_amount ∧
      inv.tax_amount = (none : Option ℚ).getD 0 ∧
      ((none : Option ℚ) = none → inv.tax_amount = 0) ∧
      inv.status = .draft := by
  have h := C6_create_invoice_totals baseDB
    { customer_id := 1, service_id := none, transaction_id := none
      invoice_number := "INV-1", subtotal := 200, tax_amount := none
      due_date := none, notes := none } johnDoe
    (by with_unfolding_all decide) (by intro sid hsid; cases hsid)
  exact h

/-- C5: generateInvoiceFromService on an existing service (whose customer
exists) creates an invoice whose subtotal is the sum of the service items
plus final_cost (0 when absent), with zero tax and total equal to the
subtotal. -/
theorem C5_generate_invoice_from_service (db : DB) (sid : Nat) (svc : Service)
    (hs : findService db sid = some svc)
    (c : Customer) (hc : findCustomer db svc.customer_id = some c) :
    ∃ inv db1, generateInvoiceFromService db sid = (.ok inv, db1) ∧
      inv.subtotal =
        ((db.serviceItems.filter (fun i => decide (i.service_id = sid))).map
          ServiceItem.total_price).sum + svc.final_cost.getD 0 ∧
      inv.tax_amount = 0 ∧
      inv.total_amount = inv.subtotal := by
  unfold generateInvoiceFromService
  simp only [hs]
  obtain ⟨inv, db1, heq, hsub, htax, htot, _⟩ :=
    createInvoice_success db
      { customer_id := svc.customer_id, service_id := some sid
        transaction_id := none
        invoice_number := "INV-SRV-" ++ toString sid ++ "-" ++ toString db.now
        subtotal :=
          ((db.serviceItems.filter (fun i => decide (i.service_id = sid))).map
            ServiceItem.total_price).sum + svc.final_cost.getD 0
        tax_amount := some 0, due_date := none
        notes := some ("Auto-generated invoice for service #" ++ toString sid) }
      c hc
      (by intro sid2 hsid2
          rcases truthyNat_some sid with h0 | h0 <;> rw [h0] at hsid2
          · cases hsid2
          · cases hsid2
            simp [hs])
  refine ⟨inv, db1, heq, hsub, ?_, ?_⟩
  · rw [htax]; simp [jsOrQ]
  · rw [htot, hsub]; simp [jsOrQ]

/-- C5 witness: the spec scenario — final_cost 150 and one stored item of
total 120 yield subtotal 270, tax 0, total 270. -/
theorem C5_generate_invoice_from_service_witness :
    ∃ inv db1, generateInvoiceFromService invoiceDB 3 = (.ok inv, db1) ∧
      inv.subtotal = 270 ∧ inv.tax_amount = 0 ∧ inv.total_amount = 270 := by
  obtain ⟨inv, db1, heq, hsub, htax, htot⟩ :=
    C5_generate_invoice_from_service invoiceDB 3 svc150
      (by with_unfolding_all decide) johnDoe (by with_unfolding_all decide)
  refine ⟨inv, db1, heq, ?_, htax, ?_⟩
  · rw [hsub]; with_unfolding_all decide
  · rw [htot, hsub]; with_unfolding_all decide

/-- C10: deleting a ServiceItem whose referenced product row no longer
exists fails with a product not-found error and leaves the store exactly as
it was: the item row stays and no stock changes. -/
theorem C10_delete_item_missing_product_no_writes (db : DB) (iid : Nat)
    (item : ServiceItem) (hi : findServiceItem db iid = some item)
    (hp : findProduct db item.product_id = none) :
    deleteServiceItem db iid =
      (.error (.notFound "Product" item.product_id), db) := by
  unfold deleteServiceItem
  simp only [hi, hp]

/-- C10 witness: a store holding an item that references the absent product
id 99 rejects the delete and is returned unchanged. -/
theorem C10_delete_item_missing_product_no_writes_witness :
    deleteServiceItem orphanDB 6 = (.error (.notFound "Product" 99), orphanDB) :=
  C10_delete_item_missing_product_no_writes orphanDB 6 orphanItem
    (by with_unfolding_all decide) (by with_unfolding_all decide)

/-- C4: deleting a stored ServiceItem restores the referenced product's
stock by exactly the recorded quantity; hence a successful create followed
by the delete of the created item returns the product's stock and the item
table to their initial values (for stores whose item ids stay below the
serial counter). -/
theorem C4_service_item_round_trip (db : DB) (input : CreateServiceItemInput)
    (iid : Nat) (item0 : ServiceItem) (p0 : Product) :
    (findServiceItem db iid = some item0 →
     findProduct db item0.product_id = some p0 →
     ∃ db1, deleteServiceItem db iid = (.ok (), db1) ∧
       stockOf db1 item0.product_id =
         some (p0.stock_quantity + item0.quantity)) ∧
    (∀ item db1, createServiceItem db input = (.ok item, db1) →
     (∀ it ∈ db.serviceItems, it.id ≠ db.nextId) →
     ∃ db2, deleteServiceItem db1 item.id = (.ok (), db2) ∧
       stockOf db2 input.product_id = stockOf db input.product_id ∧
       db2.serviceItems = db.serviceItems) := by
  constructor
  · intro hi hp
    unfold deleteServiceItem
    simp only [hi, hp]
    refine ⟨_, rfl, ?_⟩
    show (findById Product.id
        (setStock db.products item0.product_id
          (p0.stock_quantity + item0.quantity)) item0.product_id).map
      Product.stock_quantity = _
    rw [findById_setStock_self]
    show ((findProduct db item0.product_id).map _).map _ = _
    rw [hp]
    rfl
  · intro item db1 h hfresh
    unfold createServiceItem at h
    split at h
    · simp at h
    · split at h
      · simp at h
      · rename_i p hp
        split at h
        · simp at h
        · simp only [Prod.mk.injEq, Except.ok.injEq] at h
          obtain ⟨rfl, rfl⟩ := h
          have hfi : findById ServiceItem.id
              (db.serviceItems ++
                [{ id := db.nextId, service_id := input.service_id
                   product_id := input.product_id, quantity := input.quantity
                   unit_price := input.unit_price
                   total_price := (input.quantity : ℚ) * input.unit_price }])
              db.nextId =
              some { id := db.nextId, service_id := input.service_id
                     product_id := input.product_id, quantity := input.quantity
                     unit_price := input.unit_price
                     total_price := (input.quantity : ℚ) * input.unit_price } := by
            rw [findById_append, findById_eq_none _ _ _ hfresh]
            simp [findById]
          unfold deleteServiceItem
          unfold findServiceItem
          simp only [hfi]
          have hfp : findProduct
              { db with
                  serviceItems := db.serviceItems ++
                    [{ id := db.nextId, service_id := input.service_id
                       product_id := input.product_id
                       quantity := input.quantity
                       unit_price := input.unit_price
                       total_price := (input.quantity : ℚ) * input.unit_price }]
                  nextId := db.nextId + 1
                  products := setStock db.products input.product_id
                    (p.stock_quantity - input.quantity) }
              input.product_id =
              some { p with
                stock_quantity := p.stock_quantity - input.quantity } := by
            show (findById Product.id
              (setStock db.products input.product_id
                (p.stock_quantity - input.quantity)) input.product_id) = _
            rw [findById_setStock_self]
            show ((findProduct db input.product_id).map _) = _
            rw [hp]
            rfl
          simp only [hfp]
          refine ⟨_, rfl, ?_, ?_⟩
          · show (findById Product.id (setStock (setStock db.products
                input.product_id (p.stock_quantity - input.quantity))
                input.product_id
                (p.stock_quantity - input.quantity + input.quantity))
                input.product_id).map Product.stock_quantity = _
            rw [findById_setStock_self, findById_setStock_self]
            show (((findProduct db input.product_id).map _).map _).map _ = _
            rw [hp]
            show some (p.stock_quantity - input.quantity + input.quantity) = _
            rw [sub_add_cancel]
            rw [stockOf, hp]
            rfl
          · show (db.serviceItems ++ [_]).filter _ = db.serviceItems
            rw [List.filter_append]
            have h1 : db.serviceItems.filter
                (fun i => decide (i.id ≠ db.nextId)) = db.serviceItems :=
              List.filter_eq_self.mpr (fun a ha => by
                simpa using hfresh a ha)
            have h2 : ([{ id := db.nextId, service_id := input.service_id,
                          product_id := input.product_id,
                          quantity := input.quantity,
                          unit_price := input.unit_price,
                          total_price :=
                            (input.quantity : ℚ) * input.unit_price }] :
                  List ServiceItem).filter
                (fun i => decide (i.id ≠ db.nextId)) = [] := by
              simp
            rw [h1, h2, List.append_nil]

/-- C4 witness: create a part of quantity 4 against the fixture product
(stock 10), delete the created item, and the stock is 10 again with the item
table back to empty. -/
theorem C4_service_item_round_trip_witness :
    ∃ db2, deleteServiceItem
        (createServiceItem baseDB fourWidgets).2 10 = (.ok (), db2) ∧
      stockOf db2 2 = stockOf baseDB 2 ∧
      db2.serviceItems = baseDB.serviceItems := by
  obtain ⟨db2, hdel, hstock, hitems⟩ :=
    (C4_service_item_round_trip baseDB fourWidgets 0 part120 widget).2
      fourWidgetsItem (createServiceItem baseDB fourWidgets).2
      (by with_unfolding_all decide)
      (by intro it hit; simp [baseDB, DB.empty] at hit)
  exact ⟨db2, hdel, hstock, hitems⟩

/-- C1 counterexample: in `createTransactionItem` the item row is inserted
before the sale stock check, so selling 2 units with 1 on hand raises the
insufficient-stock error yet leaves the item row persisted — the operation
does not abort without partial writes as claimed. Stock itself is unchanged
and the store started with no items. -/
theorem C1_counterexample_partial_write :
    lowTxDB.transactionItems = [] ∧
    (createTransactionItem lowTxDB twoWidgetsSale).1 =
      .error (.insufficientStock 1 2) ∧
    stockOf (createTransactionItem lowTxDB twoWidgetsSale).2 2 = some 1 ∧
    (createTransactionItem lowTxDB twoWidgetsSale).2.transactionItems =
      [{ id := 10, transaction_id := 4, product_id := 2, quantity := 2
         unit_price := 30, total_price := 60 }] := by
  refine ⟨rfl, ?_, ?_, ?_⟩ <;> with_unfolding_all decide

/-- C1 amended: the stock ledger rule as the code implements it. Creating a
ServiceItem decrements stock by Q when Q ≤ S and fails leaving the store
untouched when S < Q or when the service or product is missing. Creating a
TransactionItem fails with no writes when the transaction or product is
missing; a purchase increments stock by Q unconditionally; a sale with
Q ≤ S decrements by Q; a sale with S < Q fails with the insufficient-stock
error and leaves stock unchanged, but the already-inserted item row stays
persisted (the insert precedes the check and nothing rolls it back). -/
theorem C1_stock_ledger_amended (db : DB) (si : CreateServiceItemInput)
    (ti : CreateTransactionItemInput) :
    (∀ s p, findService db si.service_id = some s →
      findProduct db si.product_id = some p →
      ((si.quantity ≤ p.stock_quantity →
        ∃ item db1, createServiceItem db si = (.ok item, db1) ∧
          stockOf db1 si.product_id =
            some (p.stock_quantity - si.quantity)) ∧
       (p.stock_quantity < si.quantity →
        createServiceItem db si =
          (.error (.insufficientStock p.stock_quantity si.quantity), db)))) ∧
    (findService db si.service_id = none →
      createServiceItem db si =
        (.error (.notFound "Service" si.service_id), db)) ∧
    (∀ s, findService db si.service_id = some s →
      findProduct db si.product_id = none →
      createServiceItem db si =
        (.error (.notFound "Product" si.product_id), db)) ∧
    (findTransaction db ti.transaction_id = none →
      createTransactionItem db ti =
        (.error (.notFound "Transaction" ti.transaction_id), db)) ∧
    (∀ tx, findTransaction db ti.transaction_id = some tx →
      findProduct db ti.product_id = none →
      createTransactionItem db ti =
        (.error (.notFound "Product" ti.product_id), db)) ∧
    (∀ tx p, findTransaction db ti.transaction_id = some tx →
      findProduct db ti.product_id = some p →
      ((tx.ttype = .purchase →
        ∃ item db1, createTransactionItem db ti = (.ok item, db1) ∧
          stockOf db1 ti.product_id =
            some (p.stock_quantity + ti.quantity)) ∧
       (tx.ttype = .sale → ti.quantity ≤ p.stock_quantity →
        ∃ item db1, createTransactionItem db ti = (.ok item, db1) ∧
          stockOf db1 ti.product_id =
            some (p.stock_quantity - ti.quantity)) ∧
       (tx.ttype = .sale → p.stock_quantity < ti.quantity →
        ∃ item db1, createTransactionItem db ti =
          (.error (.insufficientStock p.stock_quantity ti.quantity), db1) ∧
          stockOf db1 ti.product_id = stockOf db ti.product_id ∧
          db1.transactionItems = db.transactionItems ++ [item] ∧
          db1.products = db.products))) := by
  refine ⟨?_, ?_, ?_, ?_, ?_, ?_⟩
  · intro s p hs hp
    constructor
    · intro hq
      unfold createServiceItem
      simp only [hs, hp]
      rw [if_neg (not_lt.mpr hq)]
      refine ⟨_, _, rfl, ?_⟩
      show (findById Product.id
          (setStock db.products si.product_id
            (p.stock_quantity - si.quantity)) si.product_id).map
        Product.stock_quantity = _
      rw [findById_setStock_self]
      show ((findProduct db si.product_id).map _).map _ = _
      rw [hp]
      rfl
    · intro hq
      unfold createServiceItem
      simp only [hs, hp]
      rw [if_pos hq]
  · intro hs
    unfold createServiceItem
    simp only [hs]
  · intro s hs hp
    unfold createServiceItem
    simp only [hs, hp]
  · intro ht
    unfold createTransactionItem
    simp only [ht]
  · intro tx ht hp
    unfold createTransactionItem
    simp only [ht, hp]
  · intro tx p ht hp
    refine ⟨?_, ?_, ?_⟩
    · intro htype
      unfold createTransactionItem
      simp only [ht, hp, htype]
      refine ⟨_, _, rfl, ?_⟩
      show (findById Product.id
          (setStock db.products ti.product_id
            (p.stock_quantity + ti.quantity)) ti.product_id).map
        Product.stock_quantity = _
      rw [findById_setStock_self]
      show ((findProduct db ti.product_id).map _).map _ = _
      rw [hp]
      rfl
    · intro htype hq
      unfold createTransactionItem
      simp only [ht, hp, htype]
      rw [if_neg (not_lt.mpr (sub_nonneg.mpr hq))]
      refine ⟨_, _, rfl, ?_⟩
      show (findById Product.id
          (setStock db.products ti.product_id
            (p.stock_quantity - ti.quantity)) ti.product_id).map
        Product.stock_quantity = _
      rw [findById_setStock_self]
      show ((findProduct db ti.product_id).map _).map _ = _
      rw [hp]
      rfl
    · intro htype hq
      unfold createTransactionItem
      simp only [ht, hp, htype]
      rw [if_pos (sub_neg.mpr hq)]
      exact ⟨_, _, rfl, rfl, rfl, rfl⟩

/-- C1 amended witness: against the two-kind transaction store with stock 10,
a purchase of 4 raises stock to 14 and a sale of 4 lowers it to 6. -/
theorem C1_stock_ledger_amended_witness :
    (∃ item db1, createTransactionItem txDB
        { transaction_id := 5, product_id := 2, quantity := 4
          unit_price := 20 } = (.ok item, db1) ∧
      stockOf db1 2 = some ((10 : Int) + 4)) ∧
    (∃ item db1, createTransactionItem txDB
        { transaction_id := 4, product_id := 2, quantity := 4
          unit_price := 30 } = (.ok item, db1) ∧
      stockOf db1 2 = some ((10 : Int) - 4)) := by
  constructor
  · exact ((C1_stock_ledger_amended txDB fourWidgets
      { transaction_id := 5, product_id := 2, quantity := 4
        unit_price := 20 }).2.2.2.2.2 purchaseTx widget
      (by with_unfolding_all decide) (by with_unfolding_all decide)).1 rfl
  · exact ((C1_stock_ledger_amended txDB fourWidgets
      { transaction_id := 4, product_id := 2, quantity := 4
        unit_price := 30 }).2.2.2.2.2 saleTx widget
      (by with_unfolding_all decide) (by with_unfolding_all decide)).2.1 rfl
      (by with_unfolding_all decide)

/-- A POS checkout against the fixture completed service (final_cost 50)
with an explicit service-charge override of 0. -/
def posZeroOverride : CreatePosTransactionInput :=
  { customer_id := 1, service_id := some 3, items := []
    service_charge := some 0, tax_rate := 0, notes := none }

/-- A POS checkout with no override and one widget in the cart. -/
def posNoOverride : CreatePosTransactionInput :=
  { customer_id := 1, service_id := some 3
    items := [{ product_id := 2, quantity := 1, unit_price := 30 }]
    service_charge := none, tax_rate := 0, notes := none }

/-- C8 counterexample: an explicitly provided service_charge of 0 is not the
applied charge — the JS truthy-or chain falls through to the service's
final_cost, so the summary carries 50, not the provided 0. -/
theorem C8_counterexample_zero_override :
    posZeroOverride.service_charge = some 0 ∧
    doneService.final_cost = some 50 ∧
    (createPosTransaction baseDB posZeroOverride).1.toOption.map
      PosTransactionSummary.service_charge = some 50 := by
  refine ⟨rfl, rfl, ?_⟩
  with_unfolding_all decide

/-- C8 amended: with a truthy service_id the POS checkout demands a service
matching that id, that customer and status completed, failing with no writes
otherwise; on success the applied charge is the truthy-or chain — the
override when provided and nonzero, else final_cost when present and
nonzero, else 0. -/
theorem C8_pos_service_gate_and_charge (db : DB)
    (input : CreatePosTransactionInput) (sid : Nat)
    (hsid : truthyNat input.service_id = some sid) :
    (∀ c, findCustomer db input.customer_id = some c →
      findCompletedServiceFor db sid input.customer_id = none →
      createPosTransaction db input =
        (.error (.notFound "Completed service" sid), db)) ∧
    (∀ s db1, createPosTransaction db input = (.ok s, db1) →
      ∃ svc, findCompletedServiceFor db sid input.customer_id = some svc ∧
        svc.customer_id = input.customer_id ∧
        svc.status = .completed ∧
        s.service = some svc ∧
        s.service_charge =
          jsOrQ input.service_charge (jsOrQ svc.final_cost 0)) := by
  constructor
  · intro c hc hfind
    unfold createPosTransaction
    simp only [hc, hsid, hfind]
  · intro s db1 h
    unfold createPosTransaction at h
    rw [hsid] at h
    split at h
    · simp at h
    · simp only [] at h
      split at h
      · simp at h
      · rename_i osvc charge hsvc
        cases hfind : findCompletedServiceFor db sid input.customer_id with
        | none =>
          rw [hfind] at hsvc
          cases hsvc
        | some svc =>
          rw [hfind] at hsvc
          simp only [Except.ok.injEq, Prod.mk.injEq] at hsvc
          obtain ⟨rfl, rfl⟩ := hsvc
          split at h
          · simp at h
          · simp only [Prod.mk.injEq, Except.ok.injEq] at h
            obtain ⟨rfl, rfl⟩ := h
            have hpred := List.find?_some
              (by simpa [findCompletedServiceFor] using hfind)
            simp only [Bool.and_eq_true, decide_eq_true_eq] at hpred
            exact ⟨svc, rfl, hpred.2.1, hpred.2.2, rfl, rfl⟩

/-- C8 witness: with no override the fixture checkout applies the service's
own final_cost 50. -/
theorem C8_pos_service_gate_and_charge_witness :
    ∃ svc, findCompletedServiceFor baseDB 3 1 = some svc ∧
      svc.customer_id = 1 ∧ svc.status = .completed ∧
      (createPosTransaction baseDB posNoOverride).1.toOption.map
        PosTransactionSummary.service = some (some svc) ∧
      (createPosTransaction baseDB posNoOverride).1.toOption.map
        PosTransactionSummary.service_charge =
        some (jsOrQ posNoOverride.service_charge (jsOrQ svc.final_cost 0)) := by
  obtain ⟨s, hres⟩ : ∃ s,
      (createPosTransaction baseDB posNoOverride).1 = .ok s := by
    cases hres : (createPosTransaction baseDB posNoOverride).1 with
    | error e =>
      exfalso
      have h2 : (createPosTransaction baseDB posNoOverride).1.toOption.isSome
          = true := by
        with_unfolding_all decide
      rw [hres] at h2
      cases h2
    | ok s => exact ⟨s, rfl⟩
  have heq : createPosTransaction baseDB posNoOverride =
      (.ok s, (createPosTransaction baseDB posNoOverride).2) := by
    rw [← hres]
  obtain ⟨svc, hfind, hcust, hst, hsvc, hcharge⟩ :=
    (C8_pos_service_gate_and_charge baseDB posNoOverride 3 rfl).2 s
      (createPosTransaction baseDB posNoOverride).2 heq
  refine ⟨svc, hfind, hcust, hst, ?_, ?_⟩
  · rw [heq]
    show some s.service = _
    rw [hsvc]
  · rw [heq]
    show some s.service_charge = _
    rw [hcharge]

/-- The stored item rows of a transaction (SELECT ... WHERE transaction_id). -/
def itemsOfTransaction (db : DB) (tid : Nat) : List TransactionItem :=
  db.transactionItems.filter (fun i => decide (i.transaction_id = tid))

/-- The rows the POS insertion loop appends, ids counting up from `n`. -/
def posInsertedRows (n tid : Nat) : List PosItemInput → List TransactionItem
  | [] => []
  | it :: rest =>
    { id := n, transaction_id := tid, product_id := it.product_id
      quantity := it.quantity, unit_price := it.unit_price
      total_price := (it.quantity : ℚ) * it.unit_price } ::
      posInsertedRows (n + 1) tid rest

theorem posInsertItems_transactionItems (tid : Nat) (its : List PosItemInput)
    (d : DB) : (posInsertItems tid its d).transactionItems =
      d.transactionItems ++ posInsertedRows d.nextId tid its := by
  induction its generalizing d with
  | nil => simp [posInsertItems, posInsertedRows]
  | cons it rest ih =>
    rw [posInsertItems]
    simp only []
    rw [ih]
    simp [posInsertedRows]

theorem posInsertItems_transactions (tid : Nat) (its : List PosItemInput)
    (d : DB) : (posInsertItems tid its d).transactions = d.transactions := by
  induction its generalizing d with
  | nil => rfl
  | cons it rest ih =>
    rw [posInsertItems]
    simp only []
    rw [ih]

theorem posInsertedRows_tid (n tid : Nat) (its : List PosItemInput) :
    ∀ r ∈ posInsertedRows n tid its, r.transaction_id = tid := by
  induction its generalizing n with
  | nil => intro r hr; cases hr
  | cons it rest ih =>
    intro r hr
    rcases List.mem_cons.mp hr with h | h
    · rw [h]
    · exact ih (n + 1) r h

theorem posInsertedRows_length (n tid : Nat) (its : List PosItemInput) :
    (posInsertedRows n tid its).length = its.length := by
  induction its generalizing n with
  | nil => rfl
  | cons it rest ih => simp [posInsertedRows, ih]

theorem posInsertedRows_total (n tid : Nat) (its : List PosItemInput) :
    ((posInsertedRows n tid its).map TransactionItem.total_price).sum =
      (its.map (fun it => (it.quantity : ℚ) * it.unit_price)).sum := by
  induction its generalizing n with
  | nil => rfl
  | cons it rest ih => simp [posInsertedRows, ih]

theorem posValidateItems_subtotal (db : DB) (its : List PosItemInput)
    (ps : List PosItem) (sub : ℚ)
    (h : posValidateItems db its = .ok (ps, sub)) :
    sub = (its.map (fun it => (it.quantity : ℚ) * it.unit_price)).sum := by
  induction its generalizing ps sub with
  | nil =>
    simp only [posValidateItems, Except.ok.injEq, Prod.mk.injEq] at h
    simp [← h.2]
  | cons it rest ih =>
    rw [posValidateItems] at h
    split at h
    · cases h
    · split at h
      · cases h
      · split at h
        · cases h
        · rename_i ps2 sub2 hrest
          simp only [Except.ok.injEq, Prod.mk.injEq] at h
          obtain ⟨_, rfl⟩ := h
          simp [ih ps2 sub2 hrest]

/-- A taxed POS checkout: one widget at 100, the fixture completed service
(final_cost 50) and a 10 percent tax rate. -/
def posTaxed : CreatePosTransactionInput :=
  { customer_id := 1, service_id := some 3
    items := [{ product_id := 2, quantity := 1, unit_price := 100 }]
    service_charge := none, tax_rate := 1/10, notes := none }

/-- C2 counterexample: with service charge 50 and tax rate 1/10 the stored
transaction total is 165 while the stored items sum to 100 — the difference
is 65 (service charge plus tax), not the service charge amount 50. -/
theorem C2_counterexample_divergence :
    (createPosTransaction baseDB posTaxed).1.toOption.map
      PosTransactionSummary.service_charge = some 50 ∧
    (createPosTransaction baseDB posTaxed).1.toOption.map
      (fun s => s.transaction.total_amount -
        ((itemsOfTransaction (createPosTransaction baseDB posTaxed).2
          s.transaction.id).map TransactionItem.total_price).sum) =
      some 65 ∧
    (65 : ℚ) ≠ 50 := by
  refine ⟨?_, ?_, ?_⟩ <;> with_unfolding_all decide

/-- C2 amended: a successful POS checkout computes
tax = (subtotal + service_charge) * tax_rate and the all-inclusive
total = subtotal + service_charge + tax, persists one sale transaction
carrying that total and one item row per cart line whose stored prices sum
to the subtotal; hence the stored total exceeds the stored item sum by the
service charge plus the tax amount (not by the service charge alone). -/
theorem C2_pos_totals_amended (db : DB) (input : CreatePosTransactionInput)
    (hfresh : ∀ i ∈ db.transactionItems, i.transaction_id ≠ db.nextId) :
    ∀ s db1, createPosTransaction db input = (.ok s, db1) →
      s.tax_amount = (s.subtotal + s.service_charge) * input.tax_rate ∧
      s.total_amount = s.subtotal + s.service_charge + s.tax_amount ∧
      s.transaction.ttype = .sale ∧
      s.transaction.total_amount = s.total_amount ∧
      db1.transactions = db.transactions ++ [s.transaction] ∧
      (itemsOfTransaction db1 s.transaction.id).length =
        input.items.length ∧
      ((itemsOfTransaction db1 s.transaction.id).map
        TransactionItem.total_price).sum = s.subtotal ∧
      s.transaction.total_amount -
        ((itemsOfTransaction db1 s.transaction.id).map
          TransactionItem.total_price).sum =
        s.service_charge + s.tax_amount := by
  intro s db1 h
  unfold createPosTransaction at h
  split at h
  · simp at h
  · simp only [] at h
    split at h
    · simp at h
    · rename_i osvc charge hsvc
      split at h
      · simp at h
      · rename_i posItems subtotal hval
        simp only [Prod.mk.injEq, Except.ok.injEq] at h
        obtain ⟨rfl, rfl⟩ := h
        have hitems : itemsOfTransaction
            (posInsertItems db.nextId input.items
              { db with
                  transactions := db.transactions ++
                    [{ id := db.nextId, ttype := .sale, supplier_id := none
                       customer_id := some input.customer_id
                       total_amount := (subtotal + charge) +
                         (subtotal + charge) * input.tax_rate
                       transaction_date := db.now, notes := input.notes }]
                  nextId := db.nextId + 1 }) db.nextId =
            posInsertedRows (db.nextId + 1) db.nextId input.items := by
          unfold itemsOfTransaction
          rw [posInsertItems_transactionItems]
          rw [List.filter_append]
          have h1 : db.transactionItems.filter
              (fun i => decide (i.transaction_id = db.nextId)) = [] := by
            rw [List.filter_eq_nil_iff]
            intro a ha
            simpa using hfresh a ha
          have h2 : (posInsertedRows (db.nextId + 1) db.nextId
              input.items).filter
              (fun i => decide (i.transaction_id = db.nextId)) =
              posInsertedRows (db.nextId + 1) db.nextId input.items :=
            List.filter_eq_self.mpr (fun a ha => by
              simpa using posInsertedRows_tid _ _ _ a ha)
          rw [h1, h2, List.nil_append]
        have hsum : ((itemsOfTransaction
            (posInsertItems db.nextId input.items
              { db with
                  transactions := db.transactions ++
                    [{ id := db.nextId, ttype := .sale, supplier_id := none
                       customer_id := some input.customer_id
                       total_amount := (subtotal + charge) +
                         (subtotal + charge) * input.tax_rate
                       transaction_date := db.now, notes := input.notes }]
                  nextId := db.nextId + 1 }) db.nextId).map
            TransactionItem.total_price).sum = subtotal := by
          rw [hitems, posInsertedRows_total]
          exact (posValidateItems_subtotal db input.items posItems subtotal
            hval).symm
        refine ⟨rfl, rfl, rfl, rfl, ?_, ?_, ?_, ?_⟩
        · rw [posInsertItems_transactions]
        · rw [hitems, posInsertedRows_length]
        · exact hsum
        · rw [hsum]
          show (subtotal + charge) + (subtotal + charge) * input.tax_rate -
            subtotal = charge + (subtotal + charge) * input.tax_rate
          ring

/-- C2 amended witness: on the concrete taxed checkout the stored total minus
the stored item sum equals the service charge plus the tax, so the gap
closes to zero. -/
theorem C2_pos_totals_amended_witness :
    (createPosTransaction baseDB posTaxed).1.toOption.map
      (fun s => s.transaction.total_amount -
        ((itemsOfTransaction (createPosTransaction baseDB posTaxed).2
          s.transaction.id).map TransactionItem.total_price).sum -
        (s.service_charge + s.tax_amount)) = some 0 := by
  obtain ⟨s, hres⟩ : ∃ s,
      (createPosTransaction baseDB posTaxed).1 = .ok s := by
    cases hres : (createPosTransaction baseDB posTaxed).1 with
    | error e =>
      exfalso
      have h2 : (createPosTransaction baseDB posTaxed).1.toOption.isSome
          = true := by
        with_unfolding_all decide
      rw [hres] at h2
      cases h2
    | ok s => exact ⟨s, rfl⟩
  have heq : createPosTransaction baseDB posTaxed =
      (.ok s, (createPosTransaction baseDB posTaxed).2) := by
    rw [← hres]
  have h := C2_pos_totals_amended baseDB posTaxed
    (by intro i hi; simp [baseDB, DB.empty] at hi) s
    (createPosTransaction baseDB posTaxed).2 heq
  rw [hres]
  show some (s.transaction.total_amount -
      ((itemsOfTransaction (createPosTransaction baseDB posTaxed).2
        s.transaction.id).map TransactionItem.total_price).sum -
      (s.service_charge + s.tax_amount)) = some (0 : ℚ)
  rw [h.2.2.2.2.2.2.2]
  simp

theorem updateCustomer_spec (db : DB) (u : UpdateCustomerInput) :
    (findCustomer db u.id = none →
      updateCustomer db u = (.error (.notFound "Customer" u.id), db)) ∧
    (∀ c, findCustomer db u.id = some c →
      ∃ c2 db1, updateCustomer db u = (.ok c2, db1) ∧
        findCustomer db1 u.id = some c2 ∧
        c2.name = u.name.getD c.name ∧
        c2.email = u.email.getD c.email ∧
        c2.phone = u.phone.getD c.phone ∧
        c2.address = u.address.getD c.address) := by
  constructor
  · intro h
    unfold updateCustomer
    simp only [h]
  · intro c h
    have h' : findById Customer.id db.customers u.id = some c := by
      simpa [findCustomer] using h
    have hid : c.id = u.id := findById_id Customer.id db.customers u.id c h'
    unfold updateCustomer
    simp only [h]
    refine ⟨_, _, rfl, ?_, rfl, rfl, rfl, rfl⟩
    exact findById_mapById_const Customer.id db.customers u.id _ hid _ h'

theorem updateProduct_spec (db : DB) (u : UpdateProductInput) :
    (findProduct db u.id = none →
      updateProduct db u = (.error (.notFound "Product" u.id), db)) ∧
    (∀ p, findProduct db u.id = some p →
      ∃ p2 db1, updateProduct db u = (.ok p2, db1) ∧
        findProduct db1 u.id = some p2 ∧
        p2.name = u.name.getD p.name ∧
        p2.description = u.description.getD p.description ∧
        p2.sku = u.sku.getD p.sku ∧
        p2.category = u.category.getD p.category ∧
        p2.purchase_price = u.purchase_price.getD p.purchase_price ∧
        p2.selling_price = u.selling_price.getD p.selling_price ∧
        p2.stock_quantity = u.stock_quantity.getD p.stock_quantity ∧
        p2.min_stock_level = u.min_stock_level.getD p.min_stock_level ∧
        p2.updated_at = db.now) := by
  constructor
  · intro h
    unfold updateProduct
    simp only [h]
  · intro p h
    have h' : findById Product.id db.products u.id = some p := by
      simpa [findProduct] using h
    have hid : p.id = u.id := findById_id Product.id db.products u.id p h'
    unfold updateProduct
    simp only [h]
    refine ⟨_, _, rfl, ?_, rfl, rfl, rfl, rfl, rfl, rfl, rfl, rfl, rfl⟩
    exact findById_mapById_const Product.id db.products u.id _ hid _ h'

theorem updateService_spec (db : DB) (u : UpdateServiceInput) :
    (findService db u.id = none →
      updateService db u = (.error (.notFound "Service" u.id), db)) ∧
    (∀ s, findService db u.id = some s →
      ∃ s2 db1, updateService db u = (.ok s2, db1) ∧
        findService db1 u.id = some s2 ∧
        s2.device_type = u.device_type.getD s.device_type ∧
        s2.device_model = u.device_model.getD s.device_model ∧
        s2.device_serial = u.device_serial.getD s.device_serial ∧
        s2.problem_description =
          u.problem_description.getD s.problem_description ∧
        s2.repair_notes = u.repair_notes.getD s.repair_notes ∧
        s2.estimated_cost = u.estimated_cost.getD s.estimated_cost ∧
        s2.final_cost = u.final_cost.getD s.final_cost ∧
        s2.status = u.status.getD s.status ∧
        s2.completed_date = u.completed_date.getD s.completed_date ∧
        s2.updated_at = s.updated_at) := by
  constructor
  · intro h
    unfold updateService
    simp only [h]
  · intro s h
    have h' : findById Service.id db.services u.id = some s := by
      simpa [findService] using h
    have hid : s.id = u.id := findById_id Service.id db.services u.id s h'
    unfold updateService
    simp only [h]
    refine ⟨_, _, rfl, ?_, rfl, rfl, rfl, rfl, rfl, rfl, rfl, rfl, rfl, rfl⟩
    exact findById_mapById_const Service.id db.services u.id _ hid _ h'

theorem updateInvoice_spec (db : DB) (u : UpdateInvoiceInput) :
    (findInvoice db u.id = none →
      updateInvoice db u = (.error (.notFound "Invoice" u.id), db)) ∧
    (∀ i, findInvoice db u.id = some i →
      ∃ i2 db1, updateInvoice db u = (.ok i2, db1) ∧
        findInvoice db1 u.id = some i2 ∧
        i2.status = u.status.getD i.status ∧
        i2.notes = u.notes.getD i.notes ∧
        i2.paid_date = u.paid_date.join ∧
        i2.updated_at = db.now) := by
  constructor
  · intro h
    unfold updateInvoice
    simp only [h]
  · intro i h
    have h' : findById Invoice.id db.invoices u.id = some i := by
      simpa [findInvoice] using h
    have hid : i.id = u.id := findById_id Invoice.id db.invoices u.id i h'
    unfold updateInvoice
    simp only [h]
    refine ⟨_, _, rfl, ?_, rfl, rfl, rfl, rfl⟩
    exact findById_mapById_const Invoice.id db.invoices u.id _ hid _ h'

/-- An invoice on record as paid on day 5. -/
def paidInvoice : Invoice :=
  { id := 7, customer_id := 1, service_id := none, transaction_id := none
    invoice_number := "INV-7", subtotal := 100, tax_amount := 0
    total_amount := 100, status := .paid, issue_date := 1, due_date := none
    paid_date := some 5, notes := some "cash", updated_at := 1 }

/-- Store holding `paidInvoice` next to the base fixtures. -/
def invDB : DB := { baseDB with invoices := [paidInvoice] }

/-- An updateInvoice input providing only the status field. -/
def statusOnly : UpdateInvoiceInput :=
  { id := 7, status := some .sent, paid_date := none, notes := none }

/-- C3 counterexample: updateInvoice materializes an omitted paid_date as
null — updating only the status of an invoice paid on day 5 clears its
stored paid_date instead of leaving it unchanged. -/
theorem C3_counterexample_paid_date_cleared :
    statusOnly.paid_date = none ∧
    paidInvoice.paid_date = some 5 ∧
    (findInvoice (updateInvoice invDB statusOnly).2 7).map
      Invoice.paid_date = some none := by
  refine ⟨rfl, rfl, ?_⟩
  with_unfolding_all decide

/-- C3 amended: updating a missing id fails not-found with no writes for all
four entities; omitted fields stay unchanged for customer, product and
service updates and for the status and notes of an invoice update; but
updateInvoice always writes paid_date as the provided value or null (an
omitted paid_date is cleared); updateProduct and updateInvoice refresh
updated_at while updateService leaves its updated_at untouched. -/
theorem C3_update_semantics_amended (db : DB) (uc : UpdateCustomerInput)
    (up : UpdateProductInput) (us : UpdateServiceInput)
    (ui : UpdateInvoiceInput) :
    (findCustomer db uc.id = none →
      updateCustomer db uc = (.error (.notFound "Customer" uc.id), db)) ∧
    (findProduct db up.id = none →
      updateProduct db up = (.error (.notFound "Product" up.id), db)) ∧
    (findService db us.id = none →
      updateService db us = (.error (.notFound "Service" us.id), db)) ∧
    (findInvoice db ui.id = none →
      updateInvoice db ui = (.error (.notFound "Invoice" ui.id), db)) ∧
    (∀ c, findCustomer db uc.id = some c →
      ∃ c2 db1, updateCustomer db uc = (.ok c2, db1) ∧
        findCustomer db1 uc.id = some c2 ∧
        (uc.name = none → c2.name = c.name) ∧
        (uc.email = none → c2.email = c.email) ∧
        (uc.phone = none → c2.phone = c.phone) ∧
        (uc.address = none → c2.address = c.address)) ∧
    (∀ p, findProduct db up.id = some p →
      ∃ p2 db1, updateProduct db up = (.ok p2, db1) ∧
        findProduct db1 up.id = some p2 ∧
        (up.name = none → p2.name = p.name) ∧
        (up.description = none → p2.description = p.description) ∧
        (up.sku = none → p2.sku = p.sku) ∧
        (up.category = none → p2.category = p.category) ∧
        (up.purchase_price = none → p2.purchase_price = p.purchase_price) ∧
        (up.selling_price = none → p2.selling_price = p.selling_price) ∧
        (up.stock_quantity = none → p2.stock_quantity = p.stock_quantity) ∧
        (up.min_stock_level = none →
          p2.min_stock_level = p.min_stock_level) ∧
        p2.updated_at = db.now) ∧
    (∀ s, findService db us.id = some s →
      ∃ s2 db1, updateService db us = (.ok s2, db1) ∧
        findService db1 us.id = some s2 ∧
        (us.device_type = none → s2.device_type = s.device_type) ∧
        (us.device_model = none → s2.device_model = s.device_model) ∧
        (us.device_serial = none → s2.device_serial = s.device_serial) ∧
        (us.problem_description = none →
          s2.problem_description = s.problem_description) ∧
        (us.repair_notes = none → s2.repair_notes = s.repair_notes) ∧
        (us.estimated_cost = none → s2.estimated_cost = s.estimated_cost) ∧
        (us.final_cost = none → s2.final_cost = s.final_cost) ∧
        (us.status = none → s2.status = s.status) ∧
        (us.completed_date = none → s2.completed_date = s.completed_date) ∧
        s2.updated_at = s.updated_at) ∧
    (∀ i, findInvoice db ui.id = some i →
      ∃ i2 db1, updateInvoice db ui = (.ok i2, db1) ∧
        findInvoice db1 ui.id = some i2 ∧
        (ui.status = none → i2.status = i.status) ∧
        (ui.notes = none → i2.notes = i.notes) ∧
        i2.paid_date = ui.paid_date.join ∧
        i2.updated_at = db.now) := by
  refine ⟨(updateCustomer_spec db uc).1, (updateProduct_spec db up).1,
    (updateService_spec db us).1, (updateInvoice_spec db ui).1,
    ?_, ?_, ?_, ?_⟩
  · intro c hc
    obtain ⟨c2, db1, heq, hfind, h1, h2, h3, h4⟩ :=
      (updateCustomer_spec db uc).2 c hc
    refine ⟨c2, db1, heq, hfind, ?_, ?_, ?_, ?_⟩ <;> intro h0
    · rw [h1, h0]; rfl
    · rw [h2, h0]; rfl
    · rw [h3, h0]; rfl
    · rw [h4, h0]; rfl
  · intro p hp
    obtain ⟨p2, db1, heq, hfind, h1, h2, h3, h4, h5, h6, h7, h8, h9⟩ :=
      (updateProduct_spec db up).2 p hp
    refine ⟨p2, db1, heq, hfind, ?_, ?_, ?_, ?_, ?_, ?_, ?_, ?_, h9⟩ <;>
      intro h0
    · rw [h1, h0]; rfl
    · rw [h2, h0]; rfl
    · rw [h3, h0]; rfl
    · rw [h4, h0]; rfl
    · rw [h5, h0]; rfl
    · rw [h6, h0]; rfl
    · rw [h7, h0]; rfl
    · rw [h8, h0]; rfl
  · intro s hs
    obtain ⟨s2, db1, heq, hfind, h1, h2, h3, h4, h5, h6, h7, h8, h9, h10⟩ :=
      (updateService_spec db us).2 s hs
    refine ⟨s2, db1, heq, hfind, ?_, ?_, ?_, ?_, ?_, ?_, ?_, ?_, ?_, h10⟩ <;>
      intro h0
    · rw [h1, h0]; rfl
    · rw [h2, h0]; rfl
    · rw [h3, h0]; rfl
    · rw [h4, h0]; rfl
    · rw [h5, h0]; rfl
    · rw [h6, h0]; rfl
    · rw [h7, h0]; rfl
    · rw [h8, h0]; rfl
    · rw [h9, h0]; rfl
  · intro i hi
    obtain ⟨i2, db1, heq, hfind, h1, h2, h3, h4⟩ :=
      (updateInvoice_spec db ui).2 i hi
    refine ⟨i2, db1, heq, hfind, ?_, ?_, h3, h4⟩ <;> intro h0
    · rw [h1, h0]; rfl
    · rw [h2, h0]; rfl

/-- C3 amended witness: updating only the status of the stored paid invoice
keeps its notes, clears paid_date to null and stamps updated_at with the
clock value 7. -/
theorem C3_update_semantics_amended_witness :
    ∃ i2 db1, updateInvoice invDB statusOnly = (.ok i2, db1) ∧
      findInvoice db1 7 = some i2 ∧
      i2.notes = paidInvoice.notes ∧
      i2.paid_date = none ∧
      i2.updated_at = 7 := by
  obtain ⟨i2, db1, heq, hfind, _hst, hnotes, hpd, hup⟩ :=
    (C3_update_semantics_amended invDB
      { id := 0, name := none, email := none, phone := none, address := none }
      { id := 0, name := none, description := none, sku := none
        category := none, purchase_price := none, selling_price := none
        stock_quantity := none, min_stock_level := none }
      { id := 0, device_type := none, device_model := none
        device_serial := none, problem_description := none
        repair_notes := none, estimated_cost := none, final_cost := none
        status := none, completed_date := none }
      statusOnly).2.2.2.2.2.2.2 paidInvoice (by with_unfolding_all decide)
  exact ⟨i2, db1, heq, hfind, hnotes rfl, hpd, hup⟩

end RepairShop
